import Mathlib

/-!
Shallow embedding of the dental-clinic backend (FastAPI + SQLAlchemy).

Money amounts (Python floats) are modelled as integers: the only
operations the code performs on them are addition, subtraction,
two-argument `max`, and order comparisons, all of which are exact on
floats carrying integral values, so the integer model reproduces the
source's arithmetic on the whole domain the claims quantify over.  The
one genuine division (the dashboards' percent change) is modelled in ℚ.
Timestamps (Python datetime) are integers counting minutes, so that
`date + timedelta(minutes := d)` becomes integer addition.  The database
session is modelled as an explicit `Store` value; every endpoint is a
function `Store → … → Except Err Store`, where an `Err.error` result
corresponds to an HTTPException raised before `db.commit()` (the session
context manager in `app/db/session.py` then discards all pending writes,
so the store is unchanged).  `Err.crash` models an unhandled Python
`TypeError` (HTTP 500).
-/

namespace Dental

/-- Roles from `app/models/user.py` (`UserRole`). -/
inductive UserRole where
  | admin
  | manager
  | dentist
deriving DecidableEq, Repr

/-- Payment statuses from `app/models/visit.py` (`PaymentStatus`):
paid / partially paid / unpaid. -/
inductive PaymentStatus where
  | paid
  | partly
  | unpaid
deriving DecidableEq, Repr

/-- Visit statuses from `app/models/visit.py` (`VisitStatus`). -/
inductive VisitStatus where
  | scheduled
  | inProgress
  | completed
deriving DecidableEq, Repr

/-- `app/models/user.py` `User` row (password hash omitted: hashing is
done by an external library and no claim depends on it). -/
structure User where
  id : Nat
  full_name : String
  phone : String
  email : String
  role : UserRole
deriving DecidableEq, Repr

/-- `app/models/patient.py` `Patient` row. -/
structure Patient where
  id : Nat
  full_name : String
  phone : String
  total_debt : Int
  has_debt : Bool
deriving DecidableEq, Repr

/-- `app/models/procedure.py` `Procedure` row. -/
structure Procedure where
  id : Nat
  name : String
  base_price : Option Int
  duration_minutes : Option Int
deriving DecidableEq, Repr

/-- `app/models/visit.py` `Visit` row. `total_amount` is nullable;
`date` is the start timestamp in minutes. -/
structure Visit where
  id : Nat
  patient_id : Nat
  dentist_id : Nat
  procedure_id : Option Nat
  procedure : Option String
  duration_minutes : Option Int
  date : Int
  total_amount : Option Int
  paid_amount : Int
  remaining : Int
  payment_status : PaymentStatus
  visit_status : VisitStatus
deriving DecidableEq, Repr

/-- `app/models/payment.py` `Payment` row (method / payment type carry
no logic and are omitted). -/
structure Payment where
  id : Nat
  visit_id : Nat
  patient_id : Nat
  amount : Int
  date : Int
deriving DecidableEq, Repr

/-- The database state: one list per table. -/
structure Store where
  users : List User
  patients : List Patient
  procedures : List Procedure
  visits : List Visit
  payments : List Payment
deriving DecidableEq, Repr

/-- Errors surfaced by the endpoints.  `conflict` carries the colliding
visit's id and interval (the 409 detail string interpolates exactly
these).  `crash` is an unhandled `TypeError`. -/
inductive Err where
  | notFound
  | badRequest
  | validation
  | forbidden
  | conflict (visitId : Nat) (vstart vend : Int)
  | crash
deriving DecidableEq, Repr

deriving instance DecidableEq for Except

/-- HTTP status code of each error: 404 not-found, 400 bad request,
422 pydantic validation, 403 forbidden, 409 scheduling conflict,
500 unhandled exception. -/
def Err.status : Err → Nat
  | .notFound => 404
  | .badRequest => 400
  | .validation => 422
  | .forbidden => 403
  | .conflict _ _ _ => 409
  | .crash => 500

/-- Is this error the 409 conflict class? -/
def Err.isConflict : Err → Bool
  | .conflict _ _ _ => true
  | _ => false

/-- `db.get(Visit, i)`: first visit with the given primary key. -/
def Store.getVisit (s : Store) (i : Nat) : Option Visit :=
  s.visits.find? (fun v => v.id == i)

/-- `db.get(Patient, i)`. -/
def Store.getPatient (s : Store) (i : Nat) : Option Patient :=
  s.patients.find? (fun p => p.id == i)

/-- `db.get(User, i)`. -/
def Store.getUser (s : Store) (i : Nat) : Option User :=
  s.users.find? (fun u => u.id == i)

/-- `db.get(Procedure, i)`. -/
def Store.getProcedure (s : Store) (i : Nat) : Option Procedure :=
  s.procedures.find? (fun p => p.id == i)

/-- Write back an updated visit row (ORM identity: same primary key). -/
def Store.updateVisit (s : Store) (v : Visit) : Store :=
  { s with visits := s.visits.map (fun w => if w.id == v.id then v else w) }

/-- Write back an updated patient row. -/
def Store.updatePatient (s : Store) (p : Patient) : Store :=
  { s with patients := s.patients.map (fun q => if q.id == p.id then p else q) }

/-- Fresh autoincrement id for a new visit row. -/
def Store.nextVisitId (s : Store) : Nat :=
  (s.visits.foldr (fun v m => max v.id m) 0) + 1

/-- Fresh autoincrement id for a new user row. -/
def Store.nextUserId (s : Store) : Nat :=
  (s.users.foldr (fun u m => max u.id m) 0) + 1

/-- `SELECT coalesce(sum(Visit.remaining), 0) WHERE Visit.patient_id = pid`
(the patient-debt query in `create_payment`). -/
def sumRemaining (s : Store) (pid : Nat) : Int :=
  ((s.visits.filter (fun v => v.patient_id == pid)).map Visit.remaining).sum

/-- `DEFAULT_VISIT_DURATION_MIN` from `app/api/routes_visits.py`. -/
def DEFAULT_VISIT_DURATION_MIN : Int := 30

/-- The procedure-fallback half of `_get_duration_minutes`: Python's
`if procedure_id:` is truthiness, so `procedure_id = 0` is skipped; the
procedure's duration is used only when non-null and positive
(`if proc and proc.duration_minutes and proc.duration_minutes > 0`). -/
def durationFromProcedure (s : Store) (procedure_id : Option Nat) : Int :=
  match procedure_id with
  | some p =>
    if p ≠ 0 then
      match s.getProcedure p with
      | some proc =>
        match proc.duration_minutes with
        | some pd => if 0 < pd then pd else DEFAULT_VISIT_DURATION_MIN
        | none => DEFAULT_VISIT_DURATION_MIN
      | none => DEFAULT_VISIT_DURATION_MIN
    else DEFAULT_VISIT_DURATION_MIN
  | none => DEFAULT_VISIT_DURATION_MIN

/-- `_get_duration_minutes` from `app/api/routes_visits.py`.  Python's
`if duration_minutes and duration_minutes > 0:` keeps an explicit
duration only when it is non-null and positive (`some 0` is falsy,
negative values fail the comparison); otherwise it falls back to the
procedure, then to the 30-minute default. -/
def get_duration_minutes (s : Store) (duration_minutes : Option Int)
    (procedure_id : Option Nat) : Int :=
  match duration_minutes with
  | some d => if 0 < d then d else durationFromProcedure s procedure_id
  | none => durationFromProcedure s procedure_id

/-- The interval test inside `_check_overlap`:
`start_dt < v_end and end_dt > v_start`, with
`v_end = v.date + timedelta(minutes := existing_duration)`. -/
def overlaps (s : Store) (v : Visit) (start_dt end_dt : Int) : Bool :=
  decide (start_dt < v.date + get_duration_minutes s v.duration_minutes v.procedure_id
    ∧ end_dt > v.date)

/-- The visit rows scanned by `_check_overlap`: all visits of the given
dentist, minus the excluded id when `exclude_visit_id` is truthy. -/
def dentistVisits (s : Store) (dentist_id : Nat) (exclude : Option Nat) : List Visit :=
  s.visits.filter (fun v =>
    v.dentist_id == dentist_id &&
      (match exclude with
       | some e => (e == 0) || (v.id != e)
       | none => true))

/-- `_check_overlap`: returns the first colliding visit (the loop raises
HTTPException 409 at the first overlap), or `none` when the candidate
interval is free. -/
def check_overlap (s : Store) (dentist_id : Nat) (start_dt end_dt : Int)
    (exclude : Option Nat) : Option Visit :=
  (dentistVisits s dentist_id exclude).find? (fun v => overlaps s v start_dt end_dt)

/-- The 409 error raised by `_check_overlap` for a colliding visit. -/
def conflictErr (s : Store) (v : Visit) : Err :=
  Err.conflict v.id v.date
    (v.date + get_duration_minutes s v.duration_minutes v.procedure_id)

/-- Request body `PaymentCreate` from `app/schemas/payment.py`: no
constraint on `amount` (any float validates). -/
structure PaymentCreate where
  visit_id : Nat
  patient_id : Nat
  amount : Int
  date : Int
deriving DecidableEq, Repr

/-- The payment status assignment in `create_payment`:
`paid` when remaining is 0, else `partial` when remaining < total,
else `unpaid`. -/
def paymentStatusOf (remaining total : Int) : PaymentStatus :=
  if remaining = 0 then PaymentStatus.paid
  else if remaining < total then PaymentStatus.partly
  else PaymentStatus.unpaid

/-- The write sequence of `create_payment` from
`app/api/routes_payments.py`, applied once all lookups succeeded:
insert the payment row, update the visit's `paid_amount` / `remaining`
/ `payment_status`, and recompute the *request's* patient's
`total_debt` as the sum of `remaining` over that patient's visits (the
updated visit row is visible to the sum via autoflush). -/
def payApply (s : Store) (data : PaymentCreate) (visit : Visit)
    (patient : Patient) (total : Int) : Store :=
  let new_paid := visit.paid_amount + data.amount
  let remaining := max 0 (total - new_paid)
  let visit2 := { visit with
    paid_amount := new_paid
    remaining := remaining
    payment_status := paymentStatusOf remaining total }
  let s1 := s.updateVisit visit2
  let total_debt := sumRemaining s1 data.patient_id
  let patient2 := { patient with
    total_debt := total_debt
    has_debt := decide (0 < total_debt) }
  let s2 := s1.updatePatient patient2
  let payment : Payment := {
    id := s.payments.length + 1
    visit_id := data.visit_id
    patient_id := data.patient_id
    amount := data.amount
    date := data.date }
  { s2 with payments := s2.payments ++ [payment] }

/-- `create_payment` from `app/api/routes_payments.py`: look up the
visit and the patient (404 when missing), then commit the three writes
of `payApply`.  When the visit's `total_amount` is null the Python
expression `visit.total_amount - new_paid` raises `TypeError` (modelled
as `Err.crash`); nothing is committed. -/
def create_payment (s : Store) (data : PaymentCreate) : Except Err Store :=
  match s.getVisit data.visit_id with
  | none => Except.error Err.notFound
  | some visit =>
    match s.getPatient data.patient_id with
    | none => Except.error Err.notFound
    | some patient =>
      match visit.total_amount with
      | none => Except.error Err.crash
      | some total => Except.ok (payApply s data visit patient total)

/-- Endpoint wrapper: on an exception the session is closed without
commit, so the observable store is the input store. -/
def runCreatePayment (s : Store) (data : PaymentCreate) : Store × Option Err :=
  match create_payment s data with
  | Except.ok s2 => (s2, none)
  | Except.error e => (s, some e)

/-- Request body `VisitCreate` from `app/schemas/visit.py` (manager). -/
structure VisitCreate where
  patient_id : Nat
  dentist_id : Nat
  procedure_id : Option Nat
  procedure : Option String
  date : Int
  duration_minutes : Option Int
  total_amount : Option Int
deriving DecidableEq, Repr

/-- Pydantic validation of `VisitCreate`: the only constraint is
`total_amount : Field(None, ge := 0)`; `duration_minutes` is
unconstrained. -/
def VisitCreate.validB (d : VisitCreate) : Bool :=
  match d.total_amount with
  | some t => decide (0 ≤ t)
  | none => true

/-- `create_visit_by_manager` from `app/api/routes_visits.py`: pydantic
validation, then 404 for a missing patient, 400 for a missing user or a
non-dentist role, then the overlap check (409), then the insert.  The
schema has no `paid_amount` / statuses, so `paid_amount = 0`,
`visit_status = scheduled`, `payment_status = unpaid`, and
`remaining = max(0, total_amount - 0)` when `total_amount` is set. -/
def create_visit_by_manager (s : Store) (data : VisitCreate) : Except Err Store :=
  if data.validB = false then Except.error Err.validation
  else
    match s.getPatient data.patient_id with
    | none => Except.error Err.notFound
    | some _ =>
      match s.getUser data.dentist_id with
      | none => Except.error Err.badRequest
      | some dentist =>
        if dentist.role ≠ UserRole.dentist then Except.error Err.badRequest
        else
          let duration := get_duration_minutes s data.duration_minutes data.procedure_id
          let start_dt := data.date
          let end_dt := data.date + duration
          match check_overlap s data.dentist_id start_dt end_dt none with
          | some v => Except.error (conflictErr s v)
          | none =>
            let paid_amount : Int := 0
            let remaining : Int :=
              match data.total_amount with
              | some t => max 0 (t - paid_amount)
              | none => 0
            let visit : Visit := {
              id := s.nextVisitId
              patient_id := data.patient_id
              dentist_id := data.dentist_id
              procedure_id := data.procedure_id
              procedure := data.procedure
              duration_minutes := data.duration_minutes
              date := data.date
              total_amount := data.total_amount
              paid_amount := paid_amount
              remaining := remaining
              payment_status := PaymentStatus.unpaid
              visit_status := VisitStatus.scheduled }
            Except.ok { s with visits := s.visits ++ [visit] }

/-- Endpoint wrapper for `create_visit_by_manager` (rollback on error). -/
def runCreateVisitByManager (s : Store) (data : VisitCreate) : Store × Option Err :=
  match create_visit_by_manager s data with
  | Except.ok s2 => (s2, none)
  | Except.error e => (s, some e)

/-- Request body `VisitCreateByDentist` from `app/schemas/visit.py`:
no constraints at all. -/
structure VisitCreateByDentist where
  patient_id : Nat
  procedure_id : Option Nat
  procedure : Option String
  date : Int
  duration_minutes : Option Int
deriving DecidableEq, Repr

/-- `create_visit_by_dentist` from `app/api/routes_visits.py`: the
dentist id comes from the authenticated user; the visit is created with
`total_amount = None`, `paid_amount = 0`, `remaining = 0`, statuses
unpaid / scheduled. -/
def create_visit_by_dentist (s : Store) (dentist_id : Nat)
    (data : VisitCreateByDentist) : Except Err Store :=
  match s.getPatient data.patient_id with
  | none => Except.error Err.notFound
  | some _ =>
    let duration := get_duration_minutes s data.duration_minutes data.procedure_id
    match check_overlap s dentist_id data.date (data.date + duration) none with
    | some v => Except.error (conflictErr s v)
    | none =>
      let visit : Visit := {
        id := s.nextVisitId
        patient_id := data.patient_id
        dentist_id := dentist_id
        procedure_id := data.procedure_id
        procedure := data.procedure
        duration_minutes := data.duration_minutes
        date := data.date
        total_amount := none
        paid_amount := 0
        remaining := 0
        payment_status := PaymentStatus.unpaid
        visit_status := VisitStatus.scheduled }
      Except.ok { s with visits := s.visits ++ [visit] }

/-- Request body `VisitCompleteByDentist` from `app/schemas/visit.py`. -/
structure VisitCompleteByDentist where
  total_amount : Int
  duration_minutes : Option Int
deriving DecidableEq, Repr

/-- Pydantic validation of `VisitCompleteByDentist`:
`total_amount : Field(..., ge := 0)` and
`duration_minutes : Field(None, gt := 0)`. -/
def VisitCompleteByDentist.validB (d : VisitCompleteByDentist) : Bool :=
  decide (0 ≤ d.total_amount) &&
    (match d.duration_minutes with
     | some x => decide (0 < x)
     | none => true)

/-- The payment status assignment in `complete_visit_by_dentist`:
`paid` when remaining is 0 *and* total > 0, else `partial` when
0 < remaining < total, else `unpaid`. -/
def completeStatusOf (remaining total : Int) : PaymentStatus :=
  if remaining = 0 ∧ 0 < total then PaymentStatus.paid
  else if 0 < remaining ∧ remaining < total then PaymentStatus.partly
  else PaymentStatus.unpaid

/-- `complete_visit_by_dentist` from `app/api/routes_visits.py`:
pydantic validation first (422), then 404 for a missing visit, 403 when
the visit belongs to another dentist; the handler re-checks
`duration_minutes > 0` and `total_amount ≥ 0` (400, unreachable given
the schema), sets `total_amount`, recomputes
`remaining = max(0, total - paid)` (Python's `x or 0.0` on the float
fields is the identity on their values), forces
`visit_status = completed`, and reassigns `payment_status`.
The patient's `total_debt` is NOT touched. -/
def complete_visit_by_dentist (s : Store) (dentist_id : Nat) (visit_id : Nat)
    (data : VisitCompleteByDentist) : Except Err Store :=
  if data.validB = false then Except.error Err.validation
  else
    match s.getVisit visit_id with
    | none => Except.error Err.notFound
    | some visit =>
      if visit.dentist_id ≠ dentist_id then Except.error Err.forbidden
      else
        match
          (match data.duration_minutes with
           | some dm =>
             if dm ≤ 0 then Except.error Err.badRequest
             else Except.ok { visit with duration_minutes := some dm }
           | none => Except.ok visit : Except Err Visit) with
        | Except.error e => Except.error e
        | Except.ok visit1 =>
          if data.total_amount < 0 then Except.error Err.badRequest
          else
            let total := data.total_amount
            let paid := visit1.paid_amount
            let remaining := max 0 (total - paid)
            Except.ok (s.updateVisit { visit1 with
              total_amount := some total
              remaining := remaining
              visit_status := VisitStatus.completed
              payment_status := completeStatusOf remaining total })

/-- Endpoint wrapper for `complete_visit_by_dentist` (rollback on
error). -/
def runCompleteVisit (s : Store) (dentist_id : Nat) (visit_id : Nat)
    (data : VisitCompleteByDentist) : Store × Option Err :=
  match complete_visit_by_dentist s dentist_id visit_id data with
  | Except.ok s2 => (s2, none)
  | Except.error e => (s, some e)

/-- Request body `UserCreate` from `app/schemas/user.py` (password
omitted: hashed externally, irrelevant to the claims). -/
structure UserCreate where
  full_name : String
  phone : String
  email : String
  role : UserRole
deriving DecidableEq, Repr

/-- `register_user` from `app/api/routes_auth.py`: if any user already
has the requested phone, raise HTTPException(400); otherwise insert the
new user. -/
def register_user (s : Store) (data : UserCreate) : Except Err Store :=
  match s.users.find? (fun u => u.phone == data.phone) with
  | some _ => Except.error Err.badRequest
  | none =>
    let user : User := {
      id := s.nextUserId
      full_name := data.full_name
      phone := data.phone
      email := data.email
      role := data.role }
    Except.ok { s with users := s.users ++ [user] }

/-- Endpoint wrapper for `register_user` (rollback on error). -/
def runRegisterUser (s : Store) (data : UserCreate) : Store × Option Err :=
  match register_user s data with
  | Except.ok s2 => (s2, none)
  | Except.error e => (s, some e)

/-- The month-over-month percent change computed identically in
`admin_dashboard` and `dentist_dashboard`
(`app/api/routes_dashboard.py`): when the previous period's sum is 0 the
result is 100 if the current sum is truthy and positive, else 0;
otherwise `(curr - prev) / prev * 100`. -/
def percentChange (prev curr : Int) : ℚ :=
  if prev = 0 then (if 0 < curr then 100 else 0)
  else ((curr : ℚ) - (prev : ℚ)) / (prev : ℚ) * 100




/-! ### Definitions written from the spec's words (for refinement
comparison with `get_duration_minutes`) -/

/-- The duration precedence exactly as the spec states it: "the visit's
explicit duration_minutes if present, else the referenced Procedure's
duration_minutes if present, else the default of 30 minutes". -/
def specDurationPrecedence (s : Store) (dm : Option Int) (pid : Option Nat) : Int :=
  match dm with
  | some d => d
  | none =>
    match pid with
    | some p =>
      match s.getProcedure p with
      | some proc =>
        match proc.duration_minutes with
        | some pd => pd
        | none => 30
      | none => 30
    | none => 30

/-- The procedure fallback of the amended precedence: the referenced
procedure's duration if present and positive, else 30 minutes. -/
def specProcFallback (s : Store) (pid : Option Nat) : Int :=
  match pid with
  | some p =>
    match s.getProcedure p with
    | some proc =>
      match proc.duration_minutes with
      | some pd => if 0 < pd then pd else 30
      | none => 30
    | none => 30
  | none => 30

/-- The amended duration precedence: the visit's explicit
duration_minutes if present and positive, else the referenced
procedure's duration if present and positive, else 30 minutes. -/
def specDurationPos (s : Store) (dm : Option Int) (pid : Option Nat) : Int :=
  match dm with
  | some d => if 0 < d then d else specProcFallback s pid
  | none => specProcFallback s pid

/-! ### Concrete fixtures used by witnesses and counterexamples -/

/-- A concrete dentist (id 1). -/
def dent1 : User :=
  { id := 1, full_name := "a", phone := "100", email := "a", role := UserRole.dentist }

/-- A second concrete dentist (id 2). -/
def dent2 : User :=
  { id := 2, full_name := "b", phone := "101", email := "b", role := UserRole.dentist }

/-- A concrete patient (id 1) whose recorded debt (70) matches the sum
of `remaining` over their visits in `SW`. -/
def pat1 : Patient :=
  { id := 1, full_name := "p", phone := "200", total_debt := 70, has_debt := true }

/-- A second concrete patient (id 2) with no visits and no debt. -/
def pat2 : Patient :=
  { id := 2, full_name := "q", phone := "201", total_debt := 0, has_debt := false }

/-- A concrete stored visit: dentist 1, patient 1, starting at minute
600 (10:00) with explicit duration 30 (interval [10:00, 10:30)),
total 100, paid 30, remaining 70. -/
def V1 : Visit := {
  id := 1
  patient_id := 1
  dentist_id := 1
  procedure_id := none
  procedure := none
  duration_minutes := some 30
  date := 600
  total_amount := some 100
  paid_amount := 30
  remaining := 70
  payment_status := PaymentStatus.partly
  visit_status := VisitStatus.scheduled }

/-- A concrete procedure with default duration 45. -/
def proc1 : Procedure :=
  { id := 1, name := "c", base_price := some 50, duration_minutes := some 45 }

/-- The concrete store used by the witnesses: two dentists, two
patients, one stored visit for dentist 1 at [10:00, 10:30), debts
consistent with the stored visit. -/
def SW : Store := {
  users := [dent1, dent2]
  patients := [pat1, pat2]
  procedures := [proc1]
  visits := [V1]
  payments := [] }

/-- The dentist-created visit request used for the C10 scenario: a free
slot at minute 2000, no explicit duration. -/
def VD10 : VisitCreateByDentist :=
  { patient_id := 1, procedure_id := none, procedure := none,
    date := 2000, duration_minutes := none }

/-- The visit row `create_visit_by_dentist` inserts for `VD10` on `SW`:
fresh id 2, `total_amount = none`. -/
def V2d : Visit := {
  id := 2
  patient_id := 1
  dentist_id := 1
  procedure_id := none
  procedure := none
  duration_minutes := none
  date := 2000
  total_amount := none
  paid_amount := 0
  remaining := 0
  payment_status := PaymentStatus.unpaid
  visit_status := VisitStatus.scheduled }

/-- `SW` after the dentist created the not-yet-priced visit `V2d`. -/
def SWd : Store := { SW with visits := [V1, V2d] }

/-! ### Helper lemmas -/

/-- Updating the row with key `i` in a table makes a subsequent
primary-key lookup of `i` return the updated row. -/
theorem find?_map_update {α : Type} (idf : α → Nat) (l : List α) (i : Nat) (a b : α)
    (h : l.find? (fun x => idf x == i) = some a) (hb : idf b = i) :
    (l.map (fun x => if idf x == idf b then b else x)).find? (fun x => idf x == i) =
      some b := by
  induction l with
  | nil => simp at h
  | cons x xs ih =>
    by_cases hx : idf x = i
    · have hxb : (idf x == idf b) = true := by rw [hb]; simp [hx]
      simp only [List.map_cons, hxb, if_true]
      exact List.find?_cons_of_pos _ (by simp [hb])
    · have hxb : (idf x == idf b) = false := by rw [hb]; simp [hx]
      rw [List.find?_cons_of_neg _ (by simp [hx])] at h
      simp only [List.map_cons, hxb, Bool.false_eq_true, if_false]
      rw [List.find?_cons_of_neg _ (by simp [hx])]
      exact ih h

/-- After `updateVisit w`, looking up `w`'s key returns `w`. -/
theorem getVisit_updateVisit (s : Store) (i : Nat) (v w : Visit)
    (h : s.getVisit i = some v) (hw : w.id = i) :
    (s.updateVisit w).getVisit i = some w := by
  have := find?_map_update Visit.id s.visits i v w h hw
  simpa [Store.getVisit, Store.updateVisit, hw] using this

/-- After `updatePatient q`, looking up `q`'s key returns `q`. -/
theorem getPatient_updatePatient (s : Store) (i : Nat) (p q : Patient)
    (h : s.getPatient i = some p) (hq : q.id = i) :
    (s.updatePatient q).getPatient i = some q := by
  have := find?_map_update Patient.id s.patients i p q h hq
  simpa [Store.getPatient, Store.updatePatient, hq] using this

/-- The row found by a primary-key lookup carries the looked-up key. -/
theorem getVisit_id (s : Store) (i : Nat) (v : Visit)
    (h : s.getVisit i = some v) : v.id = i := by
  have := List.find?_some h
  simpa using this

/-- The row found by a primary-key lookup carries the looked-up key. -/
theorem getPatient_id (s : Store) (i : Nat) (p : Patient)
    (h : s.getPatient i = some p) : p.id = i := by
  have := List.find?_some h
  simpa using this

/-- `paymentStatusOf` agrees with the three-way split stated in the
spec whenever `remaining` is non-negative (as produced by `max 0 _`). -/
theorem paymentStatusOf_eq_split (r t : Int) (h : 0 ≤ r) :
    paymentStatusOf r t =
      (if r = 0 then PaymentStatus.paid
       else if 0 < r ∧ r < t then PaymentStatus.partly
       else PaymentStatus.unpaid) := by
  unfold paymentStatusOf
  by_cases h0 : r = 0
  · simp [h0]
  · have hrpos : 0 < r := lt_of_le_of_ne h (Ne.symm h0)
    by_cases hlt : r < t <;> simp [h0, hlt, hrpos]

/-- Looking up the visit inside the committed payment state returns the
visit with the rewritten balance fields. -/
theorem payApply_getVisit (s : Store) (d : PaymentCreate) (v : Visit) (p : Patient)
    (t : Int) (hv : s.getVisit d.visit_id = some v) :
    (payApply s d v p t).getVisit d.visit_id = some { v with
      paid_amount := v.paid_amount + d.amount
      remaining := max 0 (t - (v.paid_amount + d.amount))
      payment_status := paymentStatusOf (max 0 (t - (v.paid_amount + d.amount))) t } := by
  have hvid : v.id = d.visit_id := getVisit_id s _ v hv
  exact getVisit_updateVisit s d.visit_id v
    { v with
      paid_amount := v.paid_amount + d.amount
      remaining := max 0 (t - (v.paid_amount + d.amount))
      payment_status := paymentStatusOf (max 0 (t - (v.paid_amount + d.amount))) t }
    hv hvid

/-- Looking up the patient inside the committed payment state returns
the patient with the recomputed debt fields. -/
theorem payApply_getPatient (s : Store) (d : PaymentCreate) (v : Visit) (p : Patient)
    (t : Int) (hp : s.getPatient d.patient_id = some p) :
    (payApply s d v p t).getPatient d.patient_id = some { p with
      total_debt := sumRemaining (payApply s d v p t) d.patient_id
      has_debt := decide (0 < sumRemaining (payApply s d v p t) d.patient_id) } := by
  have hpid : p.id = d.patient_id := getPatient_id s _ p hp
  exact getPatient_updatePatient
    (s.updateVisit { v with
      paid_amount := v.paid_amount + d.amount
      remaining := max 0 (t - (v.paid_amount + d.amount))
      payment_status := paymentStatusOf (max 0 (t - (v.paid_amount + d.amount))) t })
    d.patient_id p
    { p with
      total_debt := sumRemaining (payApply s d v p t) d.patient_id
      has_debt := decide (0 < sumRemaining (payApply s d v p t) d.patient_id) }
    hp hpid

/-! ### C1 -/

/-- C1: creating a payment against an existing visit (with a set total)
and an existing patient increments the visit's `paid_amount` by the
payment amount, sets `remaining = max(0, total_amount - paid_amount)`,
and sets `payment_status` to paid when remaining is zero, partial when
`0 < remaining < total_amount`, and unpaid otherwise. -/
theorem c1_payment_application (s : Store) (d : PaymentCreate) (v : Visit)
    (p : Patient) (t : Int)
    (hv : s.getVisit d.visit_id = some v)
    (hp : s.getPatient d.patient_id = some p)
    (ht : v.total_amount = some t) :
    ∃ s2, create_payment s d = Except.ok s2 ∧
      s2.getVisit d.visit_id = some { v with
        paid_amount := v.paid_amount + d.amount
        remaining := max 0 (t - (v.paid_amount + d.amount))
        payment_status :=
          (if max 0 (t - (v.paid_amount + d.amount)) = 0 then PaymentStatus.paid
           else if 0 < max 0 (t - (v.paid_amount + d.amount)) ∧
               max 0 (t - (v.paid_amount + d.amount)) < t then PaymentStatus.partly
           else PaymentStatus.unpaid) } := by
  have hsplit := paymentStatusOf_eq_split (max 0 (t - (v.paid_amount + d.amount))) t
    (le_max_left 0 _)
  refine ⟨payApply s d v p t, by simp [create_payment, hv, hp, ht], ?_⟩
  rw [← hsplit]
  exact payApply_getVisit s d v p t hv

/-- C1 witness: on the concrete store `SW`, paying 100 against visit 1
(total 100, paid 30) yields paid 130, remaining 0, status paid. -/
theorem c1_payment_application_witness :
    ∃ s2, create_payment SW { visit_id := 1, patient_id := 1, amount := 100, date := 700 }
        = Except.ok s2 ∧
      s2.getVisit 1 = some { V1 with
        paid_amount := 130
        remaining := 0
        payment_status := PaymentStatus.paid } := by
  obtain ⟨s2, h1, h2⟩ :=
    c1_payment_application SW
      { visit_id := 1, patient_id := 1, amount := 100, date := 700 } V1 pat1 100
      (by decide) (by decide) (by decide)
  refine ⟨s2, h1, ?_⟩
  rw [h2]
  decide

/-! ### C4 -/

/-- C4: payment creation is atomic.  Either it succeeds and all three
writes are visible in the committed store (the payment row is appended,
the visit's balance fields are rewritten, and the request's patient's
debt fields are rewritten), or it fails and the observable store is the
unchanged input store (no write is applied). -/
theorem c4_payment_atomicity (s : Store) (d : PaymentCreate) :
    (∃ s2, create_payment s d = Except.ok s2 ∧ runCreatePayment s d = (s2, none) ∧
      (∃ pay : Payment, s2.payments = s.payments ++ [pay] ∧
        pay.visit_id = d.visit_id ∧ pay.patient_id = d.patient_id ∧
        pay.amount = d.amount) ∧
      (∃ v t, s.getVisit d.visit_id = some v ∧ v.total_amount = some t ∧
        s2.getVisit d.visit_id = some { v with
          paid_amount := v.paid_amount + d.amount
          remaining := max 0 (t - (v.paid_amount + d.amount))
          payment_status := paymentStatusOf (max 0 (t - (v.paid_amount + d.amount))) t }) ∧
      (∃ p, s.getPatient d.patient_id = some p ∧
        s2.getPatient d.patient_id = some { p with
          total_debt := sumRemaining s2 d.patient_id
          has_debt := decide (0 < sumRemaining s2 d.patient_id) })) ∨
    (∃ e, create_payment s d = Except.error e ∧ runCreatePayment s d = (s, some e)) := by
  cases hv : s.getVisit d.visit_id with
  | none =>
    exact Or.inr ⟨Err.notFound, by simp [create_payment, hv],
      by simp [runCreatePayment, create_payment, hv]⟩
  | some v =>
    cases hp : s.getPatient d.patient_id with
    | none =>
      exact Or.inr ⟨Err.notFound, by simp [create_payment, hv, hp],
        by simp [runCreatePayment, create_payment, hv, hp]⟩
    | some p =>
      cases ht : v.total_amount with
      | none =>
        exact Or.inr ⟨Err.crash, by simp [create_payment, hv, hp, ht],
          by simp [runCreatePayment, create_payment, hv, hp, ht]⟩
      | some t =>
        left
        have hcp : create_payment s d = Except.ok (payApply s d v p t) := by
          simp [create_payment, hv, hp, ht]
        refine ⟨payApply s d v p t, hcp, by simp [runCreatePayment, hcp], ?_, ?_, ?_⟩
        · exact ⟨_, rfl, rfl, rfl, rfl⟩
        · exact ⟨v, t, rfl, ht, payApply_getVisit s d v p t hv⟩
        · exact ⟨p, rfl, payApply_getPatient s d v p t hp⟩

/-! ### C7 -/

/-- C7: the dashboards' month-over-month percent change equals
`(curr - prev) / prev * 100` when the previous period's sum is nonzero,
100 when the previous sum is zero and the current one positive, and 0
when the previous sum is zero and the current one is zero. -/
theorem c7_percent_change (prev curr : Int) :
    (prev ≠ 0 → percentChange prev curr = ((curr : ℚ) - (prev : ℚ)) / (prev : ℚ) * 100) ∧
    (prev = 0 → 0 < curr → percentChange prev curr = 100) ∧
    (prev = 0 → curr = 0 → percentChange prev curr = 0) := by
  refine ⟨fun h => ?_, fun h hc => ?_, fun h hc => ?_⟩
  · simp [percentChange, h]
  · simp [percentChange, h, hc]
  · simp [percentChange, h, hc]

/-- C7 witness: prev 0 and curr 50 give 100 percent; prev 0 and curr 0
give 0 percent. -/
theorem c7_percent_change_witness :
    percentChange 0 50 = 100 ∧ percentChange 0 0 = 0 :=
  ⟨(c7_percent_change 0 50).2.1 rfl (by decide),
    (c7_percent_change 0 0).2.2 rfl rfl⟩


/-! ### C2 -/

/-- C2: under the request pre-checks (schema valid, patient exists,
dentist exists with the dentist role), a visit-creation request for a
dentist is rejected with a 409 conflict naming a colliding visit if and
only if some stored visit of that dentist overlaps the candidate
interval (`candidate.start < existing.end ∧ candidate.end >
existing.start`, the existing end computed from the effective
duration); any rejection of such a request is a conflict, and a
rejected request stores nothing.  An identical interval for a different
dentist is not rejected, since the overlap condition ranges only over
the requested dentist's visits. -/
theorem c2_overlap_conflict (s : Store) (data : VisitCreate) (p : Patient) (u : User)
    (hval : data.validB = true)
    (hp : s.getPatient data.patient_id = some p)
    (hu : s.getUser data.dentist_id = some u)
    (hrole : u.role = UserRole.dentist) :
    ((∃ v, v ∈ s.visits ∧ v.dentist_id = data.dentist_id ∧
        overlaps s v data.date
          (data.date + get_duration_minutes s data.duration_minutes data.procedure_id)
          = true) ↔
      (∃ v, create_visit_by_manager s data = Except.error (conflictErr s v) ∧
        v ∈ s.visits ∧ v.dentist_id = data.dentist_id ∧
        overlaps s v data.date
          (data.date + get_duration_minutes s data.duration_minutes data.procedure_id)
          = true)) ∧
    (∀ e, create_visit_by_manager s data = Except.error e →
      e.isConflict = true ∧ (runCreateVisitByManager s data).1 = s) := by
  cases hco : check_overlap s data.dentist_id data.date
      (data.date + get_duration_minutes s data.duration_minutes data.procedure_id) none with
  | some v =>
    have hcv : create_visit_by_manager s data = Except.error (conflictErr s v) := by
      simp [create_visit_by_manager, hval, hp, hu, hrole, hco]
    have hmemf : v ∈ dentistVisits s data.dentist_id none :=
      List.mem_of_find?_eq_some hco
    have hmem' := (List.mem_filter).mp hmemf
    have hdid : v.dentist_id = data.dentist_id := by
      have := hmem'.2
      simpa using this
    have hov := List.find?_some hco
    constructor
    · constructor
      · intro _
        exact ⟨v, hcv, hmem'.1, hdid, hov⟩
      · intro _
        exact ⟨v, hmem'.1, hdid, hov⟩
    · intro e he
      have : Err.conflict v.id v.date
          (v.date + get_duration_minutes s v.duration_minutes v.procedure_id) = e := by
        have := hcv.symm.trans he
        simpa [conflictErr] using this
      subst this
      exact ⟨rfl, by simp [runCreateVisitByManager, hcv]⟩
  | none =>
    have hne : ∀ e, ¬ create_visit_by_manager s data = Except.error e := by
      intro e
      simp [create_visit_by_manager, hval, hp, hu, hrole, hco]
    have hnone := List.find?_eq_none.mp hco
    constructor
    · constructor
      · rintro ⟨v, hmem, hdid, hov⟩
        exact absurd hov (by
          simpa using hnone v (List.mem_filter.mpr ⟨hmem, by simp [hdid]⟩))
      · rintro ⟨v, habs, _, _, _⟩
        exact absurd habs (hne _)
    · intro e he
      exact absurd he (hne e)

/-- C2 witness: on `SW`, the candidate [10:15, 10:45) for dentist 1
collides with visit 1 ([10:00, 10:30)) and is rejected with a conflict
naming it; the identical interval for dentist 2 succeeds. -/
theorem c2_overlap_conflict_witness :
    (∃ v, create_visit_by_manager SW
        { patient_id := 1, dentist_id := 1, procedure_id := none, procedure := none,
          date := 615, duration_minutes := some 30, total_amount := none }
        = Except.error (conflictErr SW v) ∧
      v ∈ SW.visits ∧ v.dentist_id = 1 ∧ overlaps SW v 615 645 = true) ∧
    (∀ e, create_visit_by_manager SW
        { patient_id := 1, dentist_id := 1, procedure_id := none, procedure := none,
          date := 615, duration_minutes := some 30, total_amount := none }
        = Except.error e →
      e.isConflict = true ∧
      (runCreateVisitByManager SW
        { patient_id := 1, dentist_id := 1, procedure_id := none, procedure := none,
          date := 615, duration_minutes := some 30, total_amount := none }).1 = SW) ∧
    (runCreateVisitByManager SW
        { patient_id := 1, dentist_id := 2, procedure_id := none, procedure := none,
          date := 615, duration_minutes := some 30, total_amount := none }).2 = none := by
  have h := c2_overlap_conflict SW
    { patient_id := 1, dentist_id := 1, procedure_id := none, procedure := none,
      date := 615, duration_minutes := some 30, total_amount := none }
    pat1 dent1 (by decide) (by decide) (by decide) (by decide)
  refine ⟨?_, h.2, by decide⟩
  exact h.1.mp ⟨V1, by decide, by decide, by decide⟩

/-! ### C5 -/

/-- C5: completing a visit as its own dentist requires a non-negative
total: total -5 is rejected by validation with the store unchanged; any
non-negative total succeeds, recomputing
`remaining = max(0, total - paid_amount)` and forcing
`visit_status = completed`; total 0 yields `payment_status = unpaid`. -/
theorem c5_complete_visit (s : Store) (did vid : Nat) (v : Visit)
    (hv : s.getVisit vid = some v) (hown : v.dentist_id = did) :
    (∀ dm, complete_visit_by_dentist s did vid
        { total_amount := -5, duration_minutes := dm } = Except.error Err.validation ∧
      (runCompleteVisit s did vid { total_amount := -5, duration_minutes := dm }).1 = s) ∧
    (∀ ta : Int, 0 ≤ ta →
      ∃ s2, complete_visit_by_dentist s did vid
          { total_amount := ta, duration_minutes := none } = Except.ok s2 ∧
        s2.getVisit vid = some { v with
          total_amount := some ta
          remaining := max 0 (ta - v.paid_amount)
          visit_status := VisitStatus.completed
          payment_status := completeStatusOf (max 0 (ta - v.paid_amount)) ta }) ∧
    (∃ s2, complete_visit_by_dentist s did vid
        { total_amount := 0, duration_minutes := none } = Except.ok s2 ∧
      (s2.getVisit vid).map Visit.payment_status = some PaymentStatus.unpaid) := by
  have hgen : ∀ ta : Int, 0 ≤ ta →
      ∃ s2, complete_visit_by_dentist s did vid
          { total_amount := ta, duration_minutes := none } = Except.ok s2 ∧
        s2.getVisit vid = some { v with
          total_amount := some ta
          remaining := max 0 (ta - v.paid_amount)
          visit_status := VisitStatus.completed
          payment_status := completeStatusOf (max 0 (ta - v.paid_amount)) ta } := by
    intro ta hta
    have hvalid : VisitCompleteByDentist.validB
        { total_amount := ta, duration_minutes := none } = true := by
      simp [VisitCompleteByDentist.validB, hta]
    have hc : complete_visit_by_dentist s did vid
        { total_amount := ta, duration_minutes := none }
        = Except.ok (s.updateVisit { v with
            total_amount := some ta
            remaining := max 0 (ta - v.paid_amount)
            visit_status := VisitStatus.completed
            payment_status := completeStatusOf (max 0 (ta - v.paid_amount)) ta }) := by
      simp [complete_visit_by_dentist, hvalid, hv, hown, not_lt.mpr hta]
    refine ⟨_, hc, ?_⟩
    exact getVisit_updateVisit s vid v
      { v with
        total_amount := some ta
        remaining := max 0 (ta - v.paid_amount)
        visit_status := VisitStatus.completed
        payment_status := completeStatusOf (max 0 (ta - v.paid_amount)) ta }
      hv (getVisit_id s vid v hv)
  refine ⟨fun dm => ?_, hgen, ?_⟩
  · have hvalb : VisitCompleteByDentist.validB
        { total_amount := -5, duration_minutes := dm } = false := by
      simp [VisitCompleteByDentist.validB]
    have hc : complete_visit_by_dentist s did vid
        { total_amount := -5, duration_minutes := dm } = Except.error Err.validation := by
      simp [complete_visit_by_dentist, hvalb]
    exact ⟨hc, by simp [runCompleteVisit, hc]⟩
  · obtain ⟨s2, hc, hg⟩ := hgen 0 le_rfl
    refine ⟨s2, hc, ?_⟩
    rw [hg]
    have h2 : ¬ ((0:Int) < max 0 (0 - v.paid_amount) ∧ max 0 (0 - v.paid_amount) < 0) := by
      rintro ⟨_, hlt⟩
      exact absurd hlt (not_lt.mpr (le_max_left 0 _))
    simp [completeStatusOf, h2]

/-- C5 witness: on `SW` visit 1 (dentist 1, paid 30): total -5 is
rejected with the store unchanged; total 0 completes with status
unpaid; total 200 completes with remaining 170 and status partial. -/
theorem c5_complete_visit_witness :
    (complete_visit_by_dentist SW 1 1 { total_amount := -5, duration_minutes := none }
        = Except.error Err.validation ∧
      (runCompleteVisit SW 1 1 { total_amount := -5, duration_minutes := none }).1 = SW) ∧
    (∃ s2, complete_visit_by_dentist SW 1 1 { total_amount := 0, duration_minutes := none }
        = Except.ok s2 ∧
      (s2.getVisit 1).map Visit.payment_status = some PaymentStatus.unpaid) ∧
    (∃ s2, complete_visit_by_dentist SW 1 1 { total_amount := 200, duration_minutes := none }
        = Except.ok s2 ∧
      s2.getVisit 1 = some { V1 with
        total_amount := some 200
        remaining := 170
        visit_status := VisitStatus.completed
        payment_status := PaymentStatus.partly }) := by
  have h := c5_complete_visit SW 1 1 V1 (by decide) (by decide)
  refine ⟨h.1 none, h.2.2, ?_⟩
  obtain ⟨s2, hc, hg⟩ := h.2.1 200 (by decide)
  refine ⟨s2, hc, ?_⟩
  rw [hg]
  decide


/-! ### C3 -/

/-- C3: the debt invariant `total_debt = sum of remaining over the
patient's visits` is violated by the code on reachable inputs.  On
`SW` (where patient 1's recorded debt 70 equals the stored sum): a
payment whose `patient_id` (2) differs from the target visit's patient
(1) succeeds, changes visit 1's `remaining` to 30, but leaves patient
1's `total_debt` at 70; completing visit 1 with total 200 succeeds,
changes `remaining` to 170, and also leaves `total_debt` at 70.  In
both final states the recorded debt differs from the stored sum. -/
theorem c3_debt_invariant_violation :
    ((runCreatePayment SW { visit_id := 1, patient_id := 2, amount := 40, date := 800 }).2
        = none ∧
      ((runCreatePayment SW
          { visit_id := 1, patient_id := 2, amount := 40, date := 800 }).1.getPatient 1).map
        Patient.total_debt = some 70 ∧
      sumRemaining (runCreatePayment SW
        { visit_id := 1, patient_id := 2, amount := 40, date := 800 }).1 1 = 30 ∧
      ¬ ((runCreatePayment SW
          { visit_id := 1, patient_id := 2, amount := 40, date := 800 }).1.getPatient 1).map
          Patient.total_debt
        = some (sumRemaining (runCreatePayment SW
            { visit_id := 1, patient_id := 2, amount := 40, date := 800 }).1 1)) ∧
    ((runCompleteVisit SW 1 1 { total_amount := 200, duration_minutes := none }).2 = none ∧
      ((runCompleteVisit SW 1 1
          { total_amount := 200, duration_minutes := none }).1.getPatient 1).map
        Patient.total_debt = some 70 ∧
      sumRemaining (runCompleteVisit SW 1 1
        { total_amount := 200, duration_minutes := none }).1 1 = 170 ∧
      ¬ ((runCompleteVisit SW 1 1
          { total_amount := 200, duration_minutes := none }).1.getPatient 1).map
          Patient.total_debt
        = some (sumRemaining (runCompleteVisit SW 1 1
            { total_amount := 200, duration_minutes := none }).1 1)) := by
  decide

/-! ### C6 -/

/-- C6 counterexample: the claim's stated precedence uses an explicit
`duration_minutes` whenever it is present, but the code ignores a
present non-positive value: with `duration_minutes = some 0` the code
yields the 30-minute default while the stated precedence yields 0. -/
theorem c6_duration_counterexample :
    get_duration_minutes SW (some 0) none = 30 ∧
    specDurationPrecedence SW (some 0) none = 0 ∧
    ¬ get_duration_minutes SW (some 0) none = specDurationPrecedence SW (some 0) none := by
  decide

/-- C6 (amended): over stores whose procedure ids are nonzero (as
database autoincrement keys are), the effective duration equals the
amended precedence — the explicit `duration_minutes` if present and
positive, else the referenced procedure's duration if present and
positive, else 30 minutes — and the overlap check computes an existing
visit's duration with the same rule applied to that visit's fields. -/
theorem c6_duration_precedence_amended (s : Store) (dm : Option Int) (pid : Option Nat)
    (hids : ∀ pr ∈ s.procedures, pr.id ≠ 0) :
    get_duration_minutes s dm pid = specDurationPos s dm pid ∧
    (∀ v : Visit, v.duration_minutes = dm → v.procedure_id = pid →
      get_duration_minutes s v.duration_minutes v.procedure_id = specDurationPos s dm pid) := by
  have hfall : durationFromProcedure s pid = specProcFallback s pid := by
    unfold durationFromProcedure specProcFallback
    cases pid with
    | none => rfl
    | some pc =>
      by_cases hp0 : pc = 0
      · subst hp0
        have hnone : s.getProcedure 0 = none := by
          cases hfind : s.getProcedure 0 with
          | none => rfl
          | some pr =>
            have hmem : pr ∈ s.procedures := List.mem_of_find?_eq_some hfind
            have hid : pr.id = 0 := by simpa using List.find?_some hfind
            exact absurd hid (hids pr hmem)
        simp [hnone, DEFAULT_VISIT_DURATION_MIN]
      · simp [hp0, DEFAULT_VISIT_DURATION_MIN]
  have hmain : get_duration_minutes s dm pid = specDurationPos s dm pid := by
    unfold get_duration_minutes specDurationPos
    cases dm with
    | none => exact hfall
    | some d => simp [hfall]
  refine ⟨hmain, fun v h1 h2 => ?_⟩
  rw [h1, h2]
  exact hmain

/-- C6 witness: on `SW` (procedure ids nonzero), the amended precedence
agrees with the code at an explicit zero duration with a referenced
procedure, and at a plain procedure-fallback input. -/
theorem c6_duration_precedence_amended_witness :
    (∀ pr ∈ SW.procedures, pr.id ≠ 0) ∧
    get_duration_minutes SW (some 0) (some 1) = specDurationPos SW (some 0) (some 1) ∧
    get_duration_minutes SW none (some 1) = 45 :=
  ⟨by decide,
    (c6_duration_precedence_amended SW (some 0) (some 1) (by decide)).1,
    by decide⟩

/-! ### C8 -/

/-- C8 counterexample: a payment with negative amount (-50) succeeds,
and a manager visit-creation with non-positive `duration_minutes`
(-10) succeeds — neither fails with a validation error as claimed. -/
theorem c8_validation_counterexample :
    (runCreatePayment SW { visit_id := 1, patient_id := 1, amount := -50, date := 0 }).2
      = none ∧
    (runCreateVisitByManager SW
      { patient_id := 1, dentist_id := 1, procedure_id := none, procedure := none,
        date := 2000, duration_minutes := some (-10), total_amount := none }).2 = none := by
  decide

/-- C8 (amended): only visit completion validates durations: a
completion request with a present non-positive `duration_minutes` fails
with a validation error and writes nothing.  Payment creation performs
no sign check on the amount (it succeeds on any existing visit with a
set total and existing patient, negative amounts included), and a
non-positive duration in a creation request is silently replaced by the
procedure/default fallback. -/
theorem c8_validation_amended :
    (∀ (s : Store) (did vid : Nat) (d : VisitCompleteByDentist) (k : Int),
      d.duration_minutes = some k → k ≤ 0 →
      complete_visit_by_dentist s did vid d = Except.error Err.validation ∧
      (runCompleteVisit s did vid d).1 = s) ∧
    (∀ (s : Store) (d : PaymentCreate) (v : Visit) (t : Int),
      s.getVisit d.visit_id = some v → (s.getPatient d.patient_id).isSome = true →
      v.total_amount = some t →
      ∃ s2, create_payment s d = Except.ok s2) ∧
    (∀ (s : Store) (k : Int) (pid : Option Nat), k ≤ 0 →
      get_duration_minutes s (some k) pid = durationFromProcedure s pid) := by
  refine ⟨fun s did vid d k hdm hk => ?_, fun s d v t hv hp ht => ?_, fun s k pid hk => ?_⟩
  · have hdec : decide ((0:Int) < k) = false := by
      simp [not_lt.mpr hk]
    have hvalb : d.validB = false := by
      simp [VisitCompleteByDentist.validB, hdm, hdec]
    have hc : complete_visit_by_dentist s did vid d = Except.error Err.validation := by
      simp [complete_visit_by_dentist, hvalb]
    exact ⟨hc, by simp [runCompleteVisit, hc]⟩
  · obtain ⟨p, hp⟩ := Option.isSome_iff_exists.mp hp
    exact ⟨payApply s d v p t, by simp [create_payment, hv, hp, ht]⟩
  · simp [get_duration_minutes, not_lt.mpr hk]

/-- C8 amended witness: on `SW`, completing with duration -3 is
rejected by validation with the store unchanged; a payment of -50
succeeds; an explicit duration -10 falls back to the procedure
default. -/
theorem c8_validation_amended_witness :
    (complete_visit_by_dentist SW 1 1 { total_amount := 50, duration_minutes := some (-3) }
        = Except.error Err.validation ∧
      (runCompleteVisit SW 1 1 { total_amount := 50, duration_minutes := some (-3) }).1
        = SW) ∧
    (∃ s2, create_payment SW { visit_id := 1, patient_id := 1, amount := -50, date := 0 }
        = Except.ok s2) ∧
    get_duration_minutes SW (some (-10)) none = durationFromProcedure SW none :=
  ⟨c8_validation_amended.1 SW 1 1
      { total_amount := 50, duration_minutes := some (-3) } (-3) rfl (by decide),
    c8_validation_amended.2.1 SW
      { visit_id := 1, patient_id := 1, amount := -50, date := 0 } V1 100
      (by decide) (by decide) (by decide),
    c8_validation_amended.2.2 SW (-10) none (by decide)⟩

/-! ### C9 -/

/-- The duplicate-phone registration request used as the C9
counterexample: phone "100" already belongs to `dent1`. -/
theorem c9_register_counterexample :
    (runRegisterUser SW
      { full_name := "z", phone := "100", email := "z", role := UserRole.manager }).2
      = some Err.badRequest ∧
    Err.badRequest.status = 400 ∧
    (runCreateVisitByManager SW
      { patient_id := 1, dentist_id := 1, procedure_id := none, procedure := none,
        date := 615, duration_minutes := some 30, total_amount := none }).2
      = some (Err.conflict 1 600 630) ∧
    (Err.conflict 1 600 630).status = 409 ∧
    ¬ Err.badRequest.status = (Err.conflict 1 600 630).status := by
  decide

/-- C9 (amended): registering with a phone that already belongs to an
existing user fails with a 400 bad-request error — a different error
class from the 409 conflict used for scheduling overlaps — and no user
is created; registration with a fresh phone appends the new user. -/
theorem c9_register_duplicate_phone (s : Store) (d : UserCreate) :
    ((∃ u, u ∈ s.users ∧ u.phone = d.phone) →
      register_user s d = Except.error Err.badRequest ∧
      Err.badRequest.status = 400 ∧
      (runRegisterUser s d).1 = s) ∧
    ((∀ u ∈ s.users, u.phone ≠ d.phone) →
      ∃ nu, register_user s d = Except.ok { s with users := s.users ++ [nu] } ∧
        nu.phone = d.phone) := by
  cases hf : s.users.find? (fun u => u.phone == d.phone) with
  | some u0 =>
    have hreg : register_user s d = Except.error Err.badRequest := by
      simp [register_user, hf]
    refine ⟨fun _ => ⟨hreg, rfl, by simp [runRegisterUser, hreg]⟩, fun hall => ?_⟩
    have hmem : u0 ∈ s.users := List.mem_of_find?_eq_some hf
    have hph : u0.phone = d.phone := by simpa using List.find?_some hf
    exact absurd hph (hall u0 hmem)
  | none =>
    have hnone := List.find?_eq_none.mp hf
    refine ⟨fun hex => ?_, fun _ => ?_⟩
    · obtain ⟨u, hmem, hph⟩ := hex
      exact absurd (by simp [hph] : (u.phone == d.phone) = true) (hnone u hmem)
    · refine ⟨{ id := s.nextUserId, full_name := d.full_name, phone := d.phone, email := d.email, role := d.role }, ?_, rfl⟩
      simp [register_user, hf]

/-- C9 witness: on `SW`, registering with the taken phone "100" fails
with the 400 error and the store unchanged; registering with the fresh
phone "999" appends the user. -/
theorem c9_register_duplicate_phone_witness :
    (register_user SW
        { full_name := "z", phone := "100", email := "z", role := UserRole.manager }
        = Except.error Err.badRequest ∧
      Err.badRequest.status = 400 ∧
      (runRegisterUser SW
        { full_name := "z", phone := "100", email := "z", role := UserRole.manager }).1
        = SW) ∧
    (∃ nu, register_user SW
        { full_name := "z", phone := "999", email := "z", role := UserRole.manager }
        = Except.ok { SW with users := SW.users ++ [nu] } ∧
      nu.phone = "999") :=
  ⟨(c9_register_duplicate_phone SW
      { full_name := "z", phone := "100", email := "z", role := UserRole.manager }).1
      ⟨dent1, by decide, by decide⟩,
    (c9_register_duplicate_phone SW
      { full_name := "z", phone := "999", email := "z", role := UserRole.manager }).2
      (by decide)⟩

/-! ### C10 -/

/-- C10: payment creation is not total on reachable states: a
dentist-created visit is stored with `total_amount = none`, and a
subsequent payment against it evaluates `None - new_paid`, an unhandled
`TypeError` (HTTP 500) rather than a success or one of the specified
error classes. -/
theorem c10_null_total_crash :
    create_visit_by_dentist SW 1 VD10 = Except.ok SWd ∧
    SWd.getVisit 2 = some V2d ∧
    V2d.total_amount = none ∧
    create_payment SWd { visit_id := 2, patient_id := 1, amount := 50, date := 0 }
      = Except.error Err.crash ∧
    Err.crash.status = 500 := by
  decide

end Dental
